import Mathlib

/-!
# Shallow embedding of the llm-gateway response-generation core

This file embeds, in Lean 4, the Python sources

* `apps/llm-gateway/services/lru_cache.py` (`LRUCache`),
* `apps/llm-gateway/services/llm_router.py` (`LLMRouter`),
* `apps/llm-gateway/services/detection_buffer.py` (`DetectionBufferService`),
* the `/buffer/add-detection` endpoint of `apps/llm-gateway/main.py`,

and proves the behavioural properties stated about them.

Modelling conventions:

* Python `float` confidence values and timestamps are modelled as `ℚ`.
  The claims under study are about threshold comparisons and state
  transitions, never about floating-point rounding.
* Every call to `time.time()` made during one externally triggered
  operation is modelled by a single explicit `now : ℚ` parameter supplied
  by the caller (so latency samples computed inside one operation are `0`;
  no claim concerns latency values, only the stored timestamps matter).
* The network calls of the router (`_call_gemini`, `_call_dart`,
  `_call_go`, `_call_ollama`) are modelled by their outcomes: a `Backends`
  record gives, for each of the five runtimes, the `Option String` the
  corresponding `_call_*` function would return (`none` = failure).
* Python `dict` counters keyed by strings are modelled as total functions
  `String → Nat`.
* `collections.OrderedDict` is modelled as an association list whose head
  is the least-recently-used entry and whose last element is the
  most-recently-used entry; `move_to_end` is remove-and-append,
  `popitem(last=False)` is `List.tail`.
* `RouterState.invocations` is a ghost, append-only observation log: each
  `_try_runtime` call appends the runtime it invokes.  It changes no
  behaviour and exists only so that "backend X is invoked exactly once"
  is directly statable.
-/

/-- A detection event (a Python `dict`).  The buffer only reads
`d.get('confidence', 0)`, so we model the confidence as optional (a `dict`
with a missing key) together with the label. -/
structure Event where
  label : String
  confidence : Option ℚ
deriving DecidableEq, Repr

/-- A cache entry, the value stored by `LRUCache.put`:
`{'response', 'created_at', 'last_used', 'updated_at', 'hit_count'}`. -/
structure CacheEntry where
  response : String
  created_at : ℚ
  last_used : ℚ
  updated_at : ℚ
  hit_count : Nat
deriving DecidableEq, Repr

/-- The `LRUCache` object of `lru_cache.py`.  `cache` is the
`OrderedDict`: head = least recently used, last = most recently used. -/
structure LRUCache where
  cache : List (String × CacheEntry)
  capacity : Nat
  hits : Nat
  misses : Nat
  total_requests : Nat
deriving DecidableEq, Repr

/-- `LRUCache.__init__` (default capacity 20). -/
def LRUCache.init (capacity : Nat) : LRUCache :=
  { cache := [], capacity := capacity, hits := 0, misses := 0, total_requests := 0 }

/-- `LRUCache._get_confidence_bucket`: descending threshold chain on the
fixed constants 0.90, 0.75, 0.60, 0.45, 0.40. -/
def getConfidenceBucket (confidence : ℚ) : String :=
  if confidence ≥ 0.90 then "excellent"
  else if confidence ≥ 0.75 then "good"
  else if confidence ≥ 0.60 then "moderate"
  else if confidence ≥ 0.45 then "acceptable"
  else if confidence ≥ 0.40 then "threshold"
  else "rejected"

/-- Remove the entry keyed by bucket `b` (the removal half of
`OrderedDict.move_to_end` / key overwrite). -/
def eraseBucket (l : List (String × CacheEntry)) (b : String) :
    List (String × CacheEntry) :=
  l.filter (fun p => p.1 != b)

/-- `LRUCache.get`: bump `total_requests`, bucket the confidence; on a hit
move the entry to the most-recently-used end, bump `hits`, the entry's
`hit_count` and its `last_used`, and return the stored response; on a miss
bump `misses` and return nothing. -/
def LRUCache.get (c : LRUCache) (avg_confidence : ℚ) (now : ℚ) :
    Option String × LRUCache :=
  let c := { c with total_requests := c.total_requests + 1 }
  let bucket := getConfidenceBucket avg_confidence
  match c.cache.lookup bucket with
  | some entry =>
      let entry := { entry with hit_count := entry.hit_count + 1, last_used := now }
      (some entry.response,
       { c with cache := eraseBucket c.cache bucket ++ [(bucket, entry)],
                hits := c.hits + 1 })
  | none => (none, { c with misses := c.misses + 1 })

/-- `LRUCache.put`: on an existing bucket, move it to the
most-recently-used end and overwrite its `response` and `updated_at`
(nothing else); on a new bucket, first drop the least-recently-used head
entry when the cache is at capacity, then append a fresh entry. -/
def LRUCache.put (c : LRUCache) (avg_confidence : ℚ) (response : String) (now : ℚ) :
    LRUCache :=
  let bucket := getConfidenceBucket avg_confidence
  match c.cache.lookup bucket with
  | some entry =>
      { c with cache := eraseBucket c.cache bucket ++
          [(bucket, { entry with response := response, updated_at := now })] }
  | none =>
      let cache1 := if c.cache.length ≥ c.capacity then c.cache.tail else c.cache
      { c with cache := cache1 ++
          [(bucket, { response := response, created_at := now, last_used := now,
                      updated_at := now, hit_count := 0 })] }

/-- `LRUCache.clear`. -/
def LRUCache.clearAll (c : LRUCache) : Nat × LRUCache :=
  (c.cache.length, { c with cache := [] })

/-- The outcomes of the five backend network calls, one value per
`_call_*` function of `llm_router.py` (`none` = that call fails). -/
structure Backends where
  gemini25flash : Option String
  gemini15pro : Option String
  dart : Option String
  go : Option String
  ollama : Option String
deriving DecidableEq, Repr

/-- The mutable state of `LLMRouter`. `invocations` is the ghost log
described in the file header; every other field is a field of the Python
object. -/
structure RouterState where
  rotation : List String
  current_index : Nat
  calls_by : String → Nat
  failures_by : String → Nat
  fallbacks_to_ollama : Nat
  invocations : List String

/-- Increment a string-keyed counter dictionary at one key. -/
def bump (f : String → Nat) (k : String) : String → Nat :=
  fun x => if x = k then f x + 1 else f x

/-- `LLMRouter.__init__`: the fixed five-element rotation, cursor 0, zeroed
counters. -/
def LLMRouter.init : RouterState :=
  { rotation := ["gemini-2.5-flash", "dart", "go", "ollama", "gemini-1.5-pro"]
  , current_index := 0
  , calls_by := fun _ => 0
  , failures_by := fun _ => 0
  , fallbacks_to_ollama := 0
  , invocations := [] }

/-- The `if/elif` chain of `_try_runtime` selecting which `_call_*`
function runs; an unknown runtime name yields `None`. -/
def tryResponse (bk : Backends) (runtime : String) : Option String :=
  if runtime = "gemini-2.5-flash" then bk.gemini25flash
  else if runtime = "gemini-1.5-pro" then bk.gemini15pro
  else if runtime = "dart" then bk.dart
  else if runtime = "go" then bk.go
  else if runtime = "ollama" then bk.ollama
  else none

/-- `LLMRouter._try_runtime`: run the selected backend call, then bump the
runtime's success counter (`calls_by_runtime`) or failure counter
(`failures_by_runtime`).  Returns `(response, success, state)`. -/
def tryRuntime (st : RouterState) (bk : Backends) (runtime : String) :
    Option String × Bool × RouterState :=
  let st := { st with invocations := st.invocations ++ [runtime] }
  let response := tryResponse bk runtime
  if response.isSome then
    (response, true, { st with calls_by := bump st.calls_by runtime })
  else
    (response, false, { st with failures_by := bump st.failures_by runtime })

/-- The result dictionary returned by `call_with_round_robin`.
`primary_tried` is `none` when the Python dict has no `primary_tried`
key. -/
structure RouterResult where
  response : String
  runtime : String
  used_fallback : Bool
  primary_tried : Option String
  success : Bool
deriving DecidableEq, Repr

/-- The dict returned on total failure ("even Ollama failed"). -/
def failureRecord : RouterResult :=
  { response := "Error: Todos los modelos fallaron 😅"
  , runtime := "none"
  , used_fallback := true
  , primary_tried := none
  , success := false }

/-- `LLMRouter.call_with_round_robin`: read the primary at the cursor,
advance the cursor once modulo the rotation length, try the primary; on
failure (and primary ≠ "ollama") bump `fallbacks_to_ollama` and try
"ollama" once; if everything failed return `failureRecord`. -/
def call_with_round_robin (st : RouterState) (bk : Backends) :
    RouterResult × RouterState :=
  let primary := st.rotation.getD st.current_index ""
  let st1 := { st with current_index := (st.current_index + 1) % st.rotation.length }
  let t := tryRuntime st1 bk primary
  if t.2.1 then
    ({ response := t.1.getD "", runtime := primary, used_fallback := false
     , primary_tried := none, success := true }, t.2.2)
  else if primary ≠ "ollama" then
    let st3 := { t.2.2 with fallbacks_to_ollama := t.2.2.fallbacks_to_ollama + 1 }
    let t2 := tryRuntime st3 bk "ollama"
    if t2.2.1 then
      ({ response := t2.1.getD "", runtime := "ollama (fallback)"
       , used_fallback := true, primary_tried := some primary, success := true },
       t2.2.2)
    else (failureRecord, t2.2.2)
  else (failureRecord, t.2.2)

/-- Run `n` consecutive `call_with_round_robin` dispatches against fixed
backend outcomes, collecting the returned records. -/
def dispatchRun (st : RouterState) (bk : Backends) : Nat → List RouterResult × RouterState
  | 0 => ([], st)
  | n + 1 =>
      let p := call_with_round_robin st bk
      let rest := dispatchRun p.2 bk n
      (p.1 :: rest.1, rest.2)

/-- The mutable state of `DetectionBufferService`. -/
structure ServiceState where
  buffer_size : Nat
  buffer : List Event
  cache : LRUCache
  router : RouterState
  total_detections : Nat
  ai_calls : Nat
  cached_responses : Nat
  confidence_distribution : String → Nat
  latencies_cache_hit : List ℚ
  latencies_gemini : List ℚ

/-- `DetectionBufferService.__init__` (the endpoint constructs it with
`buffer_size=4, cache_capacity=20`). -/
def DetectionBufferService.init (buffer_size cache_capacity : Nat) : ServiceState :=
  { buffer_size := buffer_size
  , buffer := []
  , cache := LRUCache.init cache_capacity
  , router := LLMRouter.init
  , total_detections := 0
  , ai_calls := 0
  , cached_responses := 0
  , confidence_distribution := fun _ => 0
  , latencies_cache_hit := []
  , latencies_gemini := [] }

/-- `_calculate_avg_confidence`: mean of `d.get('confidence', 0)` over the
buffer, `0.0` for an empty buffer. -/
def calcAvgConfidence (detections : List Event) : ℚ :=
  if detections = [] then 0
  else (detections.map (fun d => d.confidence.getD 0)).sum / detections.length

/-- `_generate_adaptive_prompt`, abstracted to the tone tier it selects
(0 = highest-confidence template .. 5 = rejection template).  The Spanish
template text itself plays no role in any property in this development; the
tier is chosen by the same descending threshold chain as the source. -/
def adaptivePromptTier (avg_confidence : ℚ) : Nat :=
  if avg_confidence ≥ 0.90 then 0
  else if avg_confidence ≥ 0.75 then 1
  else if avg_confidence ≥ 0.60 then 2
  else if avg_confidence ≥ 0.45 then 3
  else if avg_confidence ≥ 0.40 then 4
  else 5

/-- The sentinel text `_call_llm_with_fallback` (and the router's total
failure record) produces when every model failed. -/
def sentinelFailureText : String := "Error: Todos los modelos fallaron 😅"

/-- Python truthiness of the `Optional[str]` returned by `LRUCache.get`:
`if cached_response:` is taken iff it is neither `None` nor `""`. -/
def truthyStr : Option String → Bool
  | some r => r != ""
  | none => false

/-- The result dict `_process_buffer` returns on a completed window. -/
structure ProcResult where
  source : String
  response : String
  runtime : String
  avg_confidence : ℚ
  confidence_bucket : String
  detection_count : Nat
  detections : List Event
  latency_ms : ℚ
deriving DecidableEq, Repr

/-- Result of `_process_buffer` together with observations of the
service's `buffer` field at two intermediate program points: at the
`self.cache.get(...)` call, and at the `call_with_round_robin` dispatch
(when the miss path runs it). -/
structure ProcTrace where
  result : ProcResult
  state : ServiceState
  bufAtCacheGet : List Event
  bufAtDispatch : Option (List Event)

/-- `DetectionBufferService._process_buffer`, statement by statement:
return `None` on an empty buffer; compute the average confidence, count
and bucket; bump the bucket's distribution counter; consult the cache; on
a (truthy) hit record the latency, copy then clear the buffer and return
a cache-sourced result; on a miss build the prompt, dispatch through the
router, fall back to the sentinel text when the router reports failure,
store the response in the cache, copy then clear the buffer and return a
generated result. -/
def processBuffer (s : ServiceState) (bk : Backends) (now : ℚ) : Option ProcTrace :=
  if s.buffer = [] then none
  else
    let avg_confidence := calcAvgConfidence s.buffer
    let detection_count := s.buffer.length
    let bucket := getConfidenceBucket avg_confidence
    let s := { s with confidence_distribution := bump s.confidence_distribution bucket }
    let bufAtCacheGet := s.buffer
    let g := s.cache.get avg_confidence now
    let cached_response := g.1
    let s := { s with cache := g.2 }
    if truthyStr cached_response then
      let s := { s with cached_responses := s.cached_responses + 1
                      , latencies_cache_hit := s.latencies_cache_hit ++ [0] }
      let processed_buffer := s.buffer
      let s := { s with buffer := [] }
      some { result :=
               { source := "cache"
               , response := cached_response.getD ""
               , runtime := "cache"
               , avg_confidence := avg_confidence
               , confidence_bucket := bucket
               , detection_count := detection_count
               , detections := processed_buffer
               , latency_ms := 0 }
           , state := s
           , bufAtCacheGet := bufAtCacheGet
           , bufAtDispatch := none }
    else
      let _prompt_tier := adaptivePromptTier avg_confidence
      let bufAtDispatch := s.buffer
      let d := call_with_round_robin s.router bk
      let s := { s with router := d.2 }
      let ai_response := if d.1.success then d.1.response else sentinelFailureText
      let runtime_used := if d.1.success then d.1.runtime else "none"
      let s := { s with ai_calls := if d.1.success then s.ai_calls + 1 else s.ai_calls }
      let s := { s with latencies_gemini := s.latencies_gemini ++ [0] }
      let s := { s with cache := s.cache.put avg_confidence ai_response now }
      let processed_buffer := s.buffer
      let s := { s with buffer := [] }
      some { result :=
               { source := "gemini"
               , response := ai_response
               , runtime := runtime_used
               , avg_confidence := avg_confidence
               , confidence_bucket := bucket
               , detection_count := detection_count
               , detections := processed_buffer
               , latency_ms := 0 }
           , state := s
           , bufAtCacheGet := bufAtCacheGet
           , bufAtDispatch := some bufAtDispatch }

/-- `DetectionBufferService.add_detection`: append the event, bump
`total_detections`, and when the buffer has reached `buffer_size` process
it. -/
def add_detection (s : ServiceState) (detection : Event) (bk : Backends) (now : ℚ) :
    Option ProcTrace × ServiceState :=
  let s := { s with buffer := s.buffer ++ [detection]
                  , total_detections := s.total_detections + 1 }
  if s.buffer.length ≥ s.buffer_size then
    match processBuffer s bk now with
    | some tr => (some tr, tr.state)
    | none => (none, s)
  else (none, s)

/-- `DetectionBufferService.clear_buffer`. -/
def clear_buffer (s : ServiceState) : Nat × ServiceState :=
  (s.buffer.length, { s with buffer := [] })

/-- Feed a list of detections through `add_detection` one at a time (the
`/buffer/add-detection` endpoint called once per event), recording for
each call the processing outcome and the buffer fill count
`len(service.buffer)` the endpoint reports after that call. -/
def add_all (s : ServiceState) (es : List Event) (bk : Backends) (now : ℚ) :
    List (Option ProcTrace × Nat) × ServiceState :=
  match es with
  | [] => ([], s)
  | e :: rest =>
      let p := add_detection s e bk now
      let r := add_all p.2 rest bk now
      ((p.1, p.2.buffer.length) :: r.1, r.2)

/-- Backend outcomes in which every network call fails. -/
def bkAllFail : Backends :=
  { gemini25flash := none, gemini15pro := none, dart := none, go := none, ollama := none }

/-- Backend outcomes in which every network call succeeds, with a
distinct reply per runtime. -/
def bkAllOk : Backends :=
  { gemini25flash := some "flash reply", gemini15pro := some "pro reply"
  , dart := some "dart reply", go := some "go reply", ollama := some "ollama reply" }

/-- Backend outcomes in which dart and ollama fail while the rest
succeed. -/
def bkDartOllamaFail : Backends :=
  { gemini25flash := some "flash reply", gemini15pro := some "pro reply"
  , dart := none, go := some "go reply", ollama := none }

/-- A freshly initialised router whose cursor sits on "dart" (one
dispatch after start-up). -/
def routerAtDart : RouterState :=
  { LLMRouter.init with current_index := 1 }

/-- A concrete detection event with confidence 0.5. -/
def evHalf : Event := { label := "heart", confidence := some 0.5 }

/-- Four concrete detection events averaging 0.9275 (bucket
"excellent"). -/
def evsExcellent : List Event :=
  [ { label := "heart", confidence := some 0.95 }
  , { label := "heart", confidence := some 0.93 }
  , { label := "heart", confidence := some 0.92 }
  , { label := "heart", confidence := some 0.91 } ]

/-- Four more events averaging 0.945 (same bucket "excellent"). -/
def evsExcellent2 : List Event :=
  [ { label := "heart", confidence := some 0.94 }
  , { label := "heart", confidence := some 0.96 }
  , { label := "heart", confidence := some 0.93 }
  , { label := "heart", confidence := some 0.95 } ]

/-- The service as the endpoint constructs it. -/
def svcDefault : ServiceState := DetectionBufferService.init 4 20

/-- A service with a single-event window, used to watch one `add` reach
capacity. -/
def svcSize1 : ServiceState := DetectionBufferService.init 1 20

/-- A size-1-window service already holding its one event (the state
`_process_buffer` sees when an add has just reached capacity). -/
def svcOneFull : ServiceState := { svcSize1 with buffer := [evHalf] }

/-- The default service with three of four events already buffered. -/
def svcThree : ServiceState :=
  { svcDefault with
    buffer := [ { label := "heart", confidence := some 0.95 }
              , { label := "heart", confidence := some 0.93 }
              , { label := "heart", confidence := some 0.92 } ] }

/-- The default service already holding a full window of four events. -/
def svcFullExcellent : ServiceState := { svcDefault with buffer := evsExcellent }

/-- A cache of capacity 20 holding one entry for bucket "excellent",
created, last used and updated at time 0 with hit count 3. -/
def cacheWithEntry : LRUCache :=
  { cache := [("excellent",
      { response := "old text", created_at := 0, last_used := 0
      , updated_at := 0, hit_count := 3 })]
  , capacity := 20, hits := 0, misses := 0, total_requests := 0 }

/-- `cacheWithEntry` with the stored text empty (for the empty-string
truthiness corner). -/
def cacheWithEmptyEntry : LRUCache :=
  { cacheWithEntry with cache := [("excellent",
      { response := "", created_at := 0, last_used := 0
      , updated_at := 0, hit_count := 3 })] }

/-- `svcDefault` whose cache already holds the empty-text entry for
"excellent". -/
def svcWithEmptyCached : ServiceState :=
  { svcDefault with cache := cacheWithEmptyEntry }



/-- `svcWithEmptyCached` already holding a full window of four events. -/
def svcEmptyCachedFull : ServiceState :=
  { svcWithEmptyCached with buffer := evsExcellent }

/-- The sequence of `(outcome, reported fill count)` pairs produced by a
run of buffered (non-processing) adds: starting from fill level `start`,
`n` adds that each return nothing and report fill counts `start+1`,
`start+2`, ..., `start+n`. -/
def fillSeq (start : Nat) : Nat → List (Option ProcTrace × Nat)
  | 0 => []
  | n + 1 => ((none : Option ProcTrace), start + 1) :: fillSeq (start + 1) n

/-- C2: the bucket mapping is a total pure function of the confidence
value: it returns "excellent" iff `0.90 ≤ c`, "good" iff `0.75 ≤ c < 0.90`,
"moderate" iff `0.60 ≤ c < 0.75`, "acceptable" iff `0.45 ≤ c < 0.60`,
"threshold" iff `0.40 ≤ c < 0.45`, and "rejected" for every other value
(in particular all negatives); being a function into these six values, it
maps every confidence (so in particular all of `[0,1]`) to exactly one
bucket. -/
theorem bucket_total_partition (c : ℚ) :
    (getConfidenceBucket c = "excellent" ↔ 0.90 ≤ c) ∧
    (getConfidenceBucket c = "good" ↔ 0.75 ≤ c ∧ c < 0.90) ∧
    (getConfidenceBucket c = "moderate" ↔ 0.60 ≤ c ∧ c < 0.75) ∧
    (getConfidenceBucket c = "acceptable" ↔ 0.45 ≤ c ∧ c < 0.60) ∧
    (getConfidenceBucket c = "threshold" ↔ 0.40 ≤ c ∧ c < 0.45) ∧
    (getConfidenceBucket c = "rejected" ↔ c < 0.40) ∧
    getConfidenceBucket c ∈
      ["excellent", "good", "moderate", "acceptable", "threshold", "rejected"] := by
  unfold getConfidenceBucket
  split_ifs with h1 h2 h3 h4 h5 <;>
    refine ⟨?_, ?_, ?_, ?_, ?_, ?_, ?_⟩ <;>
    simp_all <;> (try linarith) <;> (intro h; linarith)

/-- Looking a bucket up after erasing it and appending a fresh entry for
it finds exactly the fresh entry. -/
theorem lookup_eraseBucket_append (l : List (String × CacheEntry)) (b : String)
    (e : CacheEntry) : (eraseBucket l b ++ [(b, e)]).lookup b = some e := by
  induction l with
  | nil => simp [eraseBucket, List.lookup]
  | cons p t ih =>
      by_cases hp : p.1 = b
      · simpa [eraseBucket, hp] using ih
      · have hb : (b == p.1) = false := by
          simp [Ne.symm hp]
        simpa [eraseBucket, List.lookup, hp, hb] using ih

/-- Appending a fresh entry to a list that does not contain its bucket
makes lookup find the fresh entry. -/
theorem lookup_append_single (l : List (String × CacheEntry)) (b : String)
    (e : CacheEntry) (h : l.lookup b = none) :
    (l ++ [(b, e)]).lookup b = some e := by
  induction l with
  | nil => simp [List.lookup]
  | cons p t ih =>
      rw [List.lookup] at h
      rcases hb : (b == p.1) with _ | _
      · rw [hb] at h
        simpa [List.lookup, hb] using ih h
      · rw [hb] at h
        simp at h
  
/-- Dropping the head preserves the absence of a bucket. -/
theorem lookup_tail_none (l : List (String × CacheEntry)) (b : String)
    (h : l.lookup b = none) : l.tail.lookup b = none := by
  cases l with
  | nil => simp
  | cons p t =>
      rw [List.lookup] at h
      rcases hb : (b == p.1) with _ | _
      · rw [hb] at h; simpa using h
      · rw [hb] at h; simp at h

/-- Characterization of `LRUCache.get` on a hit. -/
theorem get_found (c : LRUCache) (avg now : ℚ) (e : CacheEntry)
    (h : c.cache.lookup (getConfidenceBucket avg) = some e) :
    c.get avg now =
      (some e.response,
       { c with
         cache := eraseBucket c.cache (getConfidenceBucket avg) ++
           [(getConfidenceBucket avg,
             { e with hit_count := e.hit_count + 1, last_used := now })]
         hits := c.hits + 1
         total_requests := c.total_requests + 1 }) := by
  simp only [LRUCache.get, h]

/-- Characterization of `LRUCache.get` on a miss. -/
theorem get_missing (c : LRUCache) (avg now : ℚ)
    (h : c.cache.lookup (getConfidenceBucket avg) = none) :
    c.get avg now =
      (none, { c with
               misses := c.misses + 1
               total_requests := c.total_requests + 1 }) := by
  simp only [LRUCache.get, h]

/-- Characterization of `LRUCache.put` on an existing bucket. -/
theorem put_found (c : LRUCache) (avg now : ℚ) (resp : String) (e : CacheEntry)
    (h : c.cache.lookup (getConfidenceBucket avg) = some e) :
    c.put avg resp now =
      { c with cache := eraseBucket c.cache (getConfidenceBucket avg) ++
          [(getConfidenceBucket avg,
            { e with response := resp, updated_at := now })] } := by
  simp only [LRUCache.put, h]

/-- Characterization of `LRUCache.put` on a new bucket. -/
theorem put_missing (c : LRUCache) (avg now : ℚ) (resp : String)
    (h : c.cache.lookup (getConfidenceBucket avg) = none) :
    c.put avg resp now =
      { c with cache :=
          (if c.cache.length ≥ c.capacity then c.cache.tail else c.cache) ++
          [(getConfidenceBucket avg,
            { response := resp, created_at := now, last_used := now,
              updated_at := now, hit_count := 0 })] } := by
  simp only [LRUCache.put, h]

/-- Evaluation helper: confidence 0.95 falls in bucket "excellent". -/
theorem bucket_of_q95 : getConfidenceBucket 0.95 = "excellent" := by
  unfold getConfidenceBucket; norm_num

/-- C7 (amended): for every `put(bucket, text)`: if the bucket already has
an entry, that entry's text and its updated-at timestamp are updated (its
created-at and last-used timestamps and hit count are unchanged), the
entry is marked most-recently-used, and no eviction is triggered (every
other bucket's entry is retained); if the bucket is new and the cache
already holds at least capacity entries, exactly the least-recently-used
entry — the one at the front of recency order — is evicted before the new
entry is inserted. -/
theorem put_update_and_eviction (c : LRUCache) (avg now : ℚ) (resp : String) :
    (∀ e, c.cache.lookup (getConfidenceBucket avg) = some e →
      (c.put avg resp now).cache =
        eraseBucket c.cache (getConfidenceBucket avg) ++
          [(getConfidenceBucket avg, { e with response := resp, updated_at := now })] ∧
      (c.put avg resp now).cache.getLast? =
        some (getConfidenceBucket avg, { e with response := resp, updated_at := now }) ∧
      (∀ k v, k ≠ getConfidenceBucket avg →
        ((k, v) ∈ (c.put avg resp now).cache ↔ (k, v) ∈ c.cache))) ∧
    (c.cache.lookup (getConfidenceBucket avg) = none →
      c.cache.length ≥ c.capacity →
      (c.put avg resp now).cache =
        c.cache.tail ++
          [(getConfidenceBucket avg,
            { response := resp, created_at := now, last_used := now,
              updated_at := now, hit_count := 0 })]) := by
  constructor
  · intro e he
    rw [put_found c avg now resp e he]
    refine ⟨rfl, by simp, ?_⟩
    intro k v hk
    simp [eraseBucket, List.mem_filter, hk]
  · intro hn hcap
    rw [put_missing c avg now resp hn]
    simp [hcap]

/-- C7 witness: the amended statement applied to the concrete one-entry
cache `cacheWithEntry` at confidence 0.95 (bucket "excellent"). -/
theorem put_update_and_eviction_witness :
    cacheWithEntry.cache.lookup (getConfidenceBucket 0.95) =
      some { response := "old text", created_at := 0, last_used := 0
           , updated_at := 0, hit_count := 3 } ∧
    (cacheWithEntry.put 0.95 "new text" 1).cache =
      eraseBucket cacheWithEntry.cache (getConfidenceBucket 0.95) ++
        [(getConfidenceBucket 0.95,
          { response := "new text", created_at := 0, last_used := 0
          , updated_at := 1, hit_count := 3 })] :=
  ⟨by rw [bucket_of_q95]; simp [cacheWithEntry],
   ((put_update_and_eviction cacheWithEntry 0.95 1 "new text").1
     { response := "old text", created_at := 0, last_used := 0
     , updated_at := 0, hit_count := 3 }
     (by rw [bucket_of_q95]; simp [cacheWithEntry])).1⟩

/-- C7 counterexample: the claim says a `put` on an existing bucket
updates the entry's timestamps; on the concrete cache holding an entry
for "excellent" whose `last_used` is 0, a `put` at time 1 leaves
`last_used` at 0 (only `updated_at` is set to 1), so the entry's
timestamps are not all updated. -/
theorem put_last_used_not_updated_cex :
    ((cacheWithEntry.put 0.95 "new text" 1).cache.lookup "excellent").map
        CacheEntry.response = some "new text" ∧
    ((cacheWithEntry.put 0.95 "new text" 1).cache.lookup "excellent").map
        CacheEntry.updated_at = some 1 ∧
    ((cacheWithEntry.put 0.95 "new text" 1).cache.lookup "excellent").map
        CacheEntry.last_used = some 0 ∧
    (0 : ℚ) ≠ 1 := by
  have h := put_found cacheWithEntry 0.95 1 "new text"
    { response := "old text", created_at := 0, last_used := 0
    , updated_at := 0, hit_count := 3 }
    (by rw [bucket_of_q95]; simp [cacheWithEntry])
  rw [h]
  rw [bucket_of_q95]
  refine ⟨?_, ?_, ?_, by norm_num⟩ <;> simp [cacheWithEntry, eraseBucket]

/-- `_try_runtime` never touches the rotation or the cursor. -/
theorem tryRuntime_cursor (st : RouterState) (bk : Backends) (r : String) :
    (tryRuntime st bk r).2.2.current_index = st.current_index ∧
    (tryRuntime st bk r).2.2.rotation = st.rotation := by
  unfold tryRuntime
  dsimp only
  split <;> exact ⟨rfl, rfl⟩

/-- C4: every dispatch call advances the rotation cursor exactly once, to
(old cursor + 1) modulo the rotation length, unconditionally: the cursor
is set once at the top of `call_with_round_robin`, before the outcome of
any backend call is known, and the final cursor equals
`(old + 1) % rotation length` on every control path — in particular the
same advance happens whether the primary succeeds or fails, and neither
`_try_runtime` nor the fallback step changes it. -/
theorem dispatch_advances_cursor_once (st : RouterState) (bk : Backends) :
    (call_with_round_robin st bk).2.current_index =
      (st.current_index + 1) % st.rotation.length := by
  unfold call_with_round_robin
  dsimp only
  split
  · exact (tryRuntime_cursor _ bk _).1
  · split
    · split
      · exact ((tryRuntime_cursor _ bk _).1).trans (tryRuntime_cursor _ bk _).1
      · exact ((tryRuntime_cursor _ bk _).1).trans (tryRuntime_cursor _ bk _).1
    · exact (tryRuntime_cursor _ bk _).1

/-- Dispatch never changes the rotation list. -/
theorem dispatch_rotation (st : RouterState) (bk : Backends) :
    (call_with_round_robin st bk).2.rotation = st.rotation := by
  unfold call_with_round_robin
  dsimp only
  split
  · exact (tryRuntime_cursor _ bk _).2
  · split
    · split
      · exact ((tryRuntime_cursor _ bk _).2).trans (tryRuntime_cursor _ bk _).2
      · exact ((tryRuntime_cursor _ bk _).2).trans (tryRuntime_cursor _ bk _).2
    · exact (tryRuntime_cursor _ bk _).2

/-- `_try_runtime` on "ollama" runs the ollama call. -/
theorem tryResponse_ollama (bk : Backends) : tryResponse bk "ollama" = bk.ollama := by
  simp [tryResponse]

/-- Dispatch when the primary backend call succeeds. -/
theorem dispatch_primary_ok (st : RouterState) (bk : Backends) (resp : String)
    (h : tryResponse bk (st.rotation.getD st.current_index "") = some resp) :
    call_with_round_robin st bk =
      ({ response := resp
       , runtime := st.rotation.getD st.current_index ""
       , used_fallback := false
       , primary_tried := none
       , success := true },
       { st with
         current_index := (st.current_index + 1) % st.rotation.length
         calls_by := bump st.calls_by (st.rotation.getD st.current_index "")
         invocations := st.invocations ++ [st.rotation.getD st.current_index ""] }) := by
  simp only [List.getD_eq_getElem?_getD] at h
  simp [call_with_round_robin, tryRuntime, h]

/-- Dispatch when the primary fails, is not "ollama", and the ollama
fallback succeeds. -/
theorem dispatch_fallback_ok (st : RouterState) (bk : Backends) (fresp : String)
    (h1 : tryResponse bk (st.rotation.getD st.current_index "") = none)
    (h2 : st.rotation.getD st.current_index "" ≠ "ollama")
    (h3 : bk.ollama = some fresp) :
    call_with_round_robin st bk =
      ({ response := fresp
       , runtime := "ollama (fallback)"
       , used_fallback := true
       , primary_tried := some (st.rotation.getD st.current_index "")
       , success := true },
       { st with
         current_index := (st.current_index + 1) % st.rotation.length
         failures_by := bump st.failures_by (st.rotation.getD st.current_index "")
         fallbacks_to_ollama := st.fallbacks_to_ollama + 1
         calls_by := bump st.calls_by "ollama"
         invocations := st.invocations ++ [st.rotation.getD st.current_index "", "ollama"] }) := by
  simp only [List.getD_eq_getElem?_getD] at h1 h2
  simp [call_with_round_robin, tryRuntime, h1, h2, tryResponse_ollama, h3]

/-- Dispatch when the primary fails, is not "ollama", and the ollama
fallback fails as well: the sentinel failure record. -/
theorem dispatch_total_fail (st : RouterState) (bk : Backends)
    (h1 : tryResponse bk (st.rotation.getD st.current_index "") = none)
    (h2 : st.rotation.getD st.current_index "" ≠ "ollama")
    (h3 : bk.ollama = none) :
    call_with_round_robin st bk =
      (failureRecord,
       { st with
         current_index := (st.current_index + 1) % st.rotation.length
         failures_by := bump (bump st.failures_by (st.rotation.getD st.current_index "")) "ollama"
         fallbacks_to_ollama := st.fallbacks_to_ollama + 1
         invocations := st.invocations ++ [st.rotation.getD st.current_index "", "ollama"] }) := by
  simp only [List.getD_eq_getElem?_getD] at h1 h2
  simp [call_with_round_robin, tryRuntime, h1, h2, tryResponse_ollama, h3]

/-- Dispatch when the primary is "ollama" itself and it fails: no second
attempt, the sentinel failure record. -/
theorem dispatch_ollama_primary_fail (st : RouterState) (bk : Backends)
    (h1 : st.rotation.getD st.current_index "" = "ollama")
    (h3 : bk.ollama = none) :
    call_with_round_robin st bk =
      (failureRecord,
       { st with
         current_index := (st.current_index + 1) % st.rotation.length
         failures_by := bump st.failures_by "ollama"
         invocations := st.invocations ++ ["ollama"] }) := by
  simp only [List.getD_eq_getElem?_getD] at h1
  simp [call_with_round_robin, tryRuntime, h1, tryResponse_ollama, h3]

/-- C5 (amended): for every dispatch in which the primary backend fails
and the primary is not the designated fallback backend "ollama": the
primary's failure counter and the fallback-invocation counter each
increase by exactly one, the ollama fallback is invoked exactly once for
that dispatch (right after the primary), and the returned record has
used_fallback = true; the failed primary's identifier is recorded as
primary_tried when the fallback succeeds, while on a fallback failure the
sentinel record carries no primary_tried field. -/
theorem fallback_path_behavior (st : RouterState) (bk : Backends)
    (hp : tryResponse bk (st.rotation.getD st.current_index "") = none)
    (hne : st.rotation.getD st.current_index "" ≠ "ollama") :
    (call_with_round_robin st bk).2.failures_by (st.rotation.getD st.current_index "") =
      st.failures_by (st.rotation.getD st.current_index "") + 1 ∧
    (call_with_round_robin st bk).2.fallbacks_to_ollama = st.fallbacks_to_ollama + 1 ∧
    (call_with_round_robin st bk).2.invocations =
      st.invocations ++ [st.rotation.getD st.current_index "", "ollama"] ∧
    (call_with_round_robin st bk).1.used_fallback = true ∧
    (∀ fresp, bk.ollama = some fresp →
      (call_with_round_robin st bk).1.primary_tried =
        some (st.rotation.getD st.current_index "") ∧
      (call_with_round_robin st bk).1.success = true ∧
      (call_with_round_robin st bk).1.response = fresp) ∧
    (bk.ollama = none →
      (call_with_round_robin st bk).1.primary_tried = none ∧
      (call_with_round_robin st bk).1.success = false) := by
  cases hol : bk.ollama with
  | some fresp =>
      rw [dispatch_fallback_ok st bk fresp hp hne hol]
      refine ⟨by simp [bump], rfl, rfl, rfl, ?_, by simp⟩
      intro f hf
      cases hf
      exact ⟨rfl, rfl, rfl⟩
  | none =>
      rw [dispatch_total_fail st bk hp hne hol]
      have hne' : ¬ st.rotation[st.current_index]?.getD "" = "ollama" := by
        simpa [List.getD_eq_getElem?_getD] using hne
      refine ⟨by simp [bump, hne'], rfl, rfl, rfl, by simp [hol], fun _ => ⟨rfl, rfl⟩⟩

/-- C5 witness: the amended statement at a concrete router whose cursor
sits on "dart", with dart and ollama both failing. -/
theorem fallback_path_behavior_witness :
    tryResponse bkDartOllamaFail (routerAtDart.rotation.getD routerAtDart.current_index "") = none ∧
    routerAtDart.rotation.getD routerAtDart.current_index "" ≠ "ollama" ∧
    (call_with_round_robin routerAtDart bkDartOllamaFail).2.fallbacks_to_ollama =
      routerAtDart.fallbacks_to_ollama + 1 ∧
    (call_with_round_robin routerAtDart bkDartOllamaFail).2.invocations =
      routerAtDart.invocations ++
        [routerAtDart.rotation.getD routerAtDart.current_index "", "ollama"] :=
  ⟨by decide, by decide,
   (fallback_path_behavior routerAtDart bkDartOllamaFail (by decide) (by decide)).2.1,
   (fallback_path_behavior routerAtDart bkDartOllamaFail (by decide) (by decide)).2.2.1⟩

/-- C5 counterexample: with the cursor on "dart" and both dart and the
ollama fallback failing, the returned record has used_fallback = true but
carries no primary_tried field (it is `none`, not `some "dart"`),
refuting the claim that the failed primary's identifier is recorded as
primary_tried for every dispatch in which a distinct primary fails. -/
theorem fallback_primary_tried_missing_cex :
    routerAtDart.rotation.getD routerAtDart.current_index "" = "dart" ∧
    tryResponse bkDartOllamaFail "dart" = none ∧
    "dart" ≠ "ollama" ∧
    (call_with_round_robin routerAtDart bkDartOllamaFail).1.used_fallback = true ∧
    (call_with_round_robin routerAtDart bkDartOllamaFail).1.primary_tried = none ∧
    (call_with_round_robin routerAtDart bkDartOllamaFail).1.primary_tried ≠ some "dart" := by
  decide

/-- Splitting a dispatch run. -/
theorem dispatchRun_add (bk : Backends) (m : Nat) :
    ∀ (st : RouterState) (n : Nat),
      (dispatchRun st bk (m + n)).1 =
        (dispatchRun st bk m).1 ++ (dispatchRun (dispatchRun st bk m).2 bk n).1 ∧
      (dispatchRun st bk (m + n)).2 = (dispatchRun (dispatchRun st bk m).2 bk n).2 := by
  induction m with
  | zero => intro st n; simp [dispatchRun]
  | succ m ih =>
      intro st n
      rw [Nat.succ_add]
      simp only [dispatchRun]
      exact ⟨by rw [(ih _ n).1]; simp, (ih _ n).2⟩

/-- A dispatch run that stays inside one pass over the rotation: with
every backend in the rotation succeeding, the primaries tried are the
rotation slice starting at the cursor, and the cursor ends at
`(start + n) % length`. -/
theorem dispatchRun_seg (bk : Backends) :
    ∀ (n : Nat) (st : RouterState),
      st.current_index < st.rotation.length →
      st.current_index + n ≤ st.rotation.length →
      (∀ r ∈ st.rotation, (tryResponse bk r).isSome) →
      ((dispatchRun st bk n).1.map (fun r => r.runtime) =
        (st.rotation.drop st.current_index).take n ∧
       (dispatchRun st bk n).2.rotation = st.rotation ∧
       (dispatchRun st bk n).2.current_index =
         (st.current_index + n) % st.rotation.length) := by
  intro n
  induction n with
  | zero =>
      intro st hc _ _
      exact ⟨by simp [dispatchRun], rfl, by simp [dispatchRun, Nat.mod_eq_of_lt hc]⟩
  | succ n ih =>
      intro st hc hbound hmem
      have hlen : 0 < st.rotation.length := Nat.lt_of_le_of_lt (Nat.zero_le _) hc
      have hget : st.rotation.getD st.current_index "" = st.rotation[st.current_index] := by
        simp [List.getD_eq_getElem?_getD, List.getElem?_eq_getElem hc]
      have hsm : (tryResponse bk (st.rotation.getD st.current_index "")).isSome := by
        rw [hget]; exact hmem _ (List.getElem_mem _)
      obtain ⟨resp, hresp⟩ := Option.isSome_iff_exists.mp hsm
      have hdisp := dispatch_primary_ok st bk resp hresp
      simp only [dispatchRun, hdisp]
      rcases Nat.lt_or_ge (st.current_index + 1) st.rotation.length with hlt | hge
      · have hmod : (st.current_index + 1) % st.rotation.length = st.current_index + 1 :=
          Nat.mod_eq_of_lt hlt
        have ih' := ih
          { st with
            current_index := (st.current_index + 1) % st.rotation.length
            calls_by := bump st.calls_by (st.rotation.getD st.current_index "")
            invocations := st.invocations ++ [st.rotation.getD st.current_index ""] }
          (by simpa [hmod] using hlt)
          (by simp only [hmod]; omega)
          (by simpa using hmem)
        refine ⟨?_, by simpa using ih'.2.1, ?_⟩
        · simp only [List.map_cons, ih'.1]
          simp only [hmod]
          rw [List.drop_eq_getElem_cons hc, List.take_succ_cons, hget]
        · rw [ih'.2.2]
          simp only [hmod, Nat.mod_add_mod]
          congr 1
          omega
      · have hn0 : n = 0 := by omega
        subst hn0
        refine ⟨?_, rfl, rfl⟩
        simp only [dispatchRun, List.map_cons, List.map_nil]
        rw [List.drop_eq_getElem_cons hc, List.take_succ_cons, List.take_zero, hget]

/-- C8: for a rotation of length M (with the cursor at any valid
position), over M consecutive dispatch calls in which every primary
backend call succeeds, the sequence of backends tried as primary is
exactly the rotation read cyclically from the cursor (`rotate`), hence a
permutation of the rotation — each backend is tried exactly once, in
rotation order — and after those M calls the cursor has returned to its
starting position. -/
theorem round_robin_cycles_evenly (st : RouterState) (bk : Backends)
    (hc : st.current_index < st.rotation.length)
    (hs : ∀ r ∈ st.rotation, (tryResponse bk r).isSome) :
    (dispatchRun st bk st.rotation.length).1.map (fun r => r.runtime) =
      st.rotation.rotate st.current_index ∧
    List.Perm ((dispatchRun st bk st.rotation.length).1.map (fun r => r.runtime))
      st.rotation ∧
    (dispatchRun st bk st.rotation.length).2.current_index = st.current_index := by
  have hsplit := dispatchRun_add bk (st.rotation.length - st.current_index) st
    st.current_index
  have htot : st.rotation.length - st.current_index + st.current_index =
      st.rotation.length := Nat.sub_add_cancel (Nat.le_of_lt hc)
  have hseg1 := dispatchRun_seg bk (st.rotation.length - st.current_index) st hc
    (by omega) hs
  set mid := (dispatchRun st bk (st.rotation.length - st.current_index)).2 with hmid
  have hmidc : mid.current_index = 0 := by
    rw [hseg1.2.2]
    have h : st.current_index + (st.rotation.length - st.current_index) =
        st.rotation.length := by omega
    rw [h, Nat.mod_self]
  have hmidrot : mid.rotation = st.rotation := hseg1.2.1
  have hseg2 := dispatchRun_seg bk st.current_index mid
    (by rw [hmidc, hmidrot]; omega)
    (by rw [hmidc, hmidrot]; omega)
    (by rw [hmidrot]; exact hs)
  have hmap1 : (dispatchRun st bk (st.rotation.length - st.current_index)).1.map
      (fun r => r.runtime) = st.rotation.drop st.current_index := by
    rw [hseg1.1]
    exact List.take_of_length_le (by simp)
  have hmap2 : (dispatchRun mid bk st.current_index).1.map (fun r => r.runtime) =
      st.rotation.take st.current_index := by
    rw [hseg2.1, hmidc, hmidrot]
    simp
  have hmap : (dispatchRun st bk st.rotation.length).1.map (fun r => r.runtime) =
      st.rotation.rotate st.current_index := by
    rw [← htot, hsplit.1, List.map_append, hmap1, hmap2,
      List.rotate_eq_drop_append_take (Nat.le_of_lt hc)]
  refine ⟨hmap, ?_, ?_⟩
  · rw [hmap]
    exact List.rotate_perm st.rotation st.current_index
  · rw [← htot, hsplit.2, hseg2.2.2, hmidc, hmidrot]
    simp [Nat.mod_eq_of_lt hc]

/-- C8 witness: the freshly initialised router (rotation length 5, cursor
0) with all backends succeeding. -/
theorem round_robin_cycles_evenly_witness :
    LLMRouter.init.current_index < LLMRouter.init.rotation.length ∧
    (∀ r ∈ LLMRouter.init.rotation, (tryResponse bkAllOk r).isSome) ∧
    (dispatchRun LLMRouter.init bkAllOk LLMRouter.init.rotation.length).1.map
        (fun r => r.runtime) =
      LLMRouter.init.rotation.rotate LLMRouter.init.current_index ∧
    (dispatchRun LLMRouter.init bkAllOk LLMRouter.init.rotation.length).2.current_index =
      LLMRouter.init.current_index :=
  ⟨by decide, by decide,
   (round_robin_cycles_evenly LLMRouter.init bkAllOk (by decide) (by decide)).1,
   (round_robin_cycles_evenly LLMRouter.init bkAllOk (by decide) (by decide)).2.2⟩

/-- `fillSeq` in closed form. -/
theorem fillSeq_eq_range_map (n : Nat) :
    ∀ start, fillSeq start n =
      (List.range n).map (fun i => ((none : Option ProcTrace), start + i + 1)) := by
  induction n with
  | zero => intro start; rfl
  | succ n ih =>
      intro start
      rw [List.range_succ_eq_map]
      simp only [fillSeq, ih, List.map_cons, List.map_map]
      congr 1
      all_goals simp
      all_goals (intro a ha; omega)

/-- On a nonempty buffer, `_process_buffer` always returns a result
record; on every control path the returned state's buffer is empty, the
record's detections are the processed window, and the buffer observed at
the cache consultation (and at the dispatch, when one happens) is still
the full window. -/
theorem processBuffer_shape (s : ServiceState) (bk : Backends) (now : ℚ)
    (h : s.buffer ≠ []) :
    ∃ tr, processBuffer s bk now = some tr ∧
      tr.state.buffer = [] ∧
      tr.result.detections = s.buffer ∧
      tr.result.detection_count = s.buffer.length ∧
      tr.bufAtCacheGet = s.buffer ∧
      (∀ b, tr.bufAtDispatch = some b → b = s.buffer) := by
  unfold processBuffer
  rw [if_neg h]
  dsimp only
  split
  · exact ⟨_, rfl, rfl, rfl, rfl, rfl, fun b hb => Option.noConfusion hb⟩
  · exact ⟨_, rfl, rfl, rfl, rfl, rfl, fun b hb => (Option.some.inj hb).symm⟩

/-- Whenever `_process_buffer` returns a record, the new buffer is
empty. -/
theorem processBuffer_clears (s : ServiceState) (bk : Backends) (now : ℚ)
    (tr : ProcTrace) (h : processBuffer s bk now = some tr) :
    tr.state.buffer = [] := by
  have hne : s.buffer ≠ [] := by
    intro hb
    rw [processBuffer, if_pos hb] at h
    exact Option.noConfusion h
  obtain ⟨tr', h', hb, -⟩ := processBuffer_shape s bk now hne
  rw [h'] at h
  cases h
  exact hb

/-- An `add_detection` that leaves the buffer strictly below capacity:
no result, event appended, counter bumped. -/
theorem add_detection_below (s : ServiceState) (e : Event) (bk : Backends) (now : ℚ)
    (h : s.buffer.length + 1 < s.buffer_size) :
    add_detection s e bk now =
      (none, { s with
               buffer := s.buffer ++ [e]
               total_detections := s.total_detections + 1 }) := by
  have hc : ¬ ((s.buffer ++ [e]).length ≥ s.buffer_size) := by
    simp only [List.length_append, List.length_singleton]
    omega
  simp only [add_detection]
  dsimp only
  rw [if_neg hc]

/-- An `add_detection` that reaches capacity hands the appended window to
`_process_buffer` and returns its record and state. -/
theorem add_detection_reach (s : ServiceState) (e : Event) (bk : Backends) (now : ℚ)
    (h : s.buffer_size ≤ s.buffer.length + 1) :
    ∃ tr, processBuffer
        { s with
          buffer := s.buffer ++ [e]
          total_detections := s.total_detections + 1 } bk now = some tr ∧
      add_detection s e bk now = (some tr, tr.state) := by
  have hc : (s.buffer ++ [e]).length ≥ s.buffer_size := by
    simp only [List.length_append, List.length_singleton]
    omega
  obtain ⟨tr, htr, -⟩ := processBuffer_shape
    { s with
      buffer := s.buffer ++ [e]
      total_detections := s.total_detections + 1 } bk now (by simp)
  refine ⟨tr, htr, ?_⟩
  simp only [add_detection]
  rw [if_pos hc, htr]

/-- Running a batch of adds that exactly fills the window from fill level
`len(buffer)`: every add but the last returns nothing with fill counts
increasing by one, and the last add hands the full window to
`_process_buffer`, returning its record with a fill count of 0. -/
theorem add_all_run (bk : Backends) (now : ℚ) :
    ∀ (es : List Event) (s : ServiceState),
      s.buffer.length + es.length = s.buffer_size →
      0 < es.length →
      ∃ tr, processBuffer
          { s with
            buffer := s.buffer ++ es
            total_detections := s.total_detections + es.length } bk now = some tr ∧
        (add_all s es bk now).1 =
          fillSeq s.buffer.length (es.length - 1) ++ [(some tr, 0)] ∧
        (add_all s es bk now).2 = tr.state := by
  intro es
  induction es with
  | nil => intro s _ h0; simp at h0
  | cons e rest ih =>
      intro s h h0
      cases rest with
      | nil =>
          obtain ⟨tr, htr, hadd⟩ := add_detection_reach s e bk now
            (by simp at h; omega)
          refine ⟨tr, by simpa using htr, ?_, ?_⟩
          · have hclr := processBuffer_clears _ bk now tr htr
            simp [add_all, hadd, fillSeq, hclr]
          · simp [add_all, hadd]
      | cons e2 rest2 =>
          have hlt : s.buffer.length + 1 < s.buffer_size := by
            simp at h; omega
          have hbelow := add_detection_below s e bk now hlt
          set s2 : ServiceState :=
            { s with
              buffer := s.buffer ++ [e]
              total_detections := s.total_detections + 1 } with hs2
          obtain ⟨tr, htr, hres, hstate⟩ := ih s2
            (by simp [hs2]; simp at h; omega)
            (by simp)
          refine ⟨tr, ?_, ?_, ?_⟩
          · rw [← htr]
            congr 1
            rw [hs2]
            simp [ServiceState.mk.injEq, List.append_assoc]
            try omega
          · rw [add_all]
            simp only [hbelow]
            rw [hres, hs2]
            simp [fillSeq]
          · rw [add_all]
            simp only [hbelow]
            exact hstate

/-- C1: for every buffer capacity N ≥ 1, starting from an empty buffer,
each of the first N-1 calls to add_detection returns no result while the
reported fill count increases by one each time (1, 2, ..., N-1); the N-th
call returns a full processing record (carrying all N events) and
afterwards the buffer's fill count is 0. -/
theorem buffer_fill_cycle (N : Nat) (s : ServiceState) (es : List Event)
    (bk : Backends) (now : ℚ)
    (hN : 1 ≤ N) (hbuf : s.buffer = []) (hsize : s.buffer_size = N)
    (hlen : es.length = N) :
    ∃ tr, (add_all s es bk now).1 =
        (List.range (N - 1)).map (fun i => ((none : Option ProcTrace), i + 1)) ++
          [(some tr, 0)] ∧
      (add_all s es bk now).2 = tr.state ∧
      tr.state.buffer = [] ∧
      tr.result.detection_count = N ∧
      tr.result.detections = es := by
  have hfits : s.buffer.length + es.length = s.buffer_size := by
    rw [hbuf, hsize, hlen]; simp
  obtain ⟨tr, htr, hres, hstate⟩ := add_all_run bk now es s hfits (by omega)
  obtain ⟨tr', htr', hb', hdet', hcount', -, -⟩ :=
    processBuffer_shape
      { s with
        buffer := s.buffer ++ es
        total_detections := s.total_detections + es.length } bk now
      (by
        simp only [hbuf, List.nil_append]
        exact List.length_pos.mp (by omega))
  rw [htr'] at htr
  cases htr
  refine ⟨tr, ?_, hstate, hb', ?_, ?_⟩
  · rw [hres, hbuf, hlen]
    simp [fillSeq_eq_range_map]
  · simp only [hbuf, List.nil_append] at hcount'
    rw [hcount', hlen]
  · simpa [hbuf] using hdet'

/-- C1 witness: the endpoint's service (window size 4) fed four events. -/
theorem buffer_fill_cycle_witness :
    1 ≤ 4 ∧ svcDefault.buffer = [] ∧ svcDefault.buffer_size = 4 ∧
    evsExcellent.length = 4 ∧
    ∃ tr, (add_all svcDefault evsExcellent bkAllOk 0).1 =
        (List.range (4 - 1)).map (fun i => ((none : Option ProcTrace), i + 1)) ++
          [(some tr, 0)] ∧
      (add_all svcDefault evsExcellent bkAllOk 0).2 = tr.state ∧
      tr.state.buffer = [] ∧
      tr.result.detection_count = 4 ∧
      tr.result.detections = evsExcellent :=
  ⟨by decide, rfl, rfl, rfl,
   buffer_fill_cycle 4 svcDefault evsExcellent bkAllOk 0 (by decide) rfl rfl rfl⟩

/-- `_process_buffer` on a truthy cache hit: cache-sourced result, stored
text returned, hit counters bumped, buffer cleared, no dispatch. -/
theorem processBuffer_hit (s : ServiceState) (bk : Backends) (now : ℚ) (e : CacheEntry)
    (hbuf : s.buffer ≠ [])
    (hlk : s.cache.cache.lookup (getConfidenceBucket (calcAvgConfidence s.buffer)) =
      some e)
    (hne : e.response ≠ "") :
    processBuffer s bk now = some
      { result :=
          { source := "cache"
          , response := e.response
          , runtime := "cache"
          , avg_confidence := calcAvgConfidence s.buffer
          , confidence_bucket := getConfidenceBucket (calcAvgConfidence s.buffer)
          , detection_count := s.buffer.length
          , detections := s.buffer
          , latency_ms := 0 }
      , state :=
          { s with
            buffer := []
            cache :=
              { s.cache with
                cache :=
                  eraseBucket s.cache.cache
                      (getConfidenceBucket (calcAvgConfidence s.buffer)) ++
                    [(getConfidenceBucket (calcAvgConfidence s.buffer),
                      { e with hit_count := e.hit_count + 1, last_used := now })]
                hits := s.cache.hits + 1
                total_requests := s.cache.total_requests + 1 }
            cached_responses := s.cached_responses + 1
            confidence_distribution :=
              bump s.confidence_distribution
                (getConfidenceBucket (calcAvgConfidence s.buffer))
            latencies_cache_hit := s.latencies_cache_hit ++ [0] }
      , bufAtCacheGet := s.buffer
      , bufAtDispatch := none } := by
  have hget := get_found s.cache (calcAvgConfidence s.buffer) now e hlk
  simp only [processBuffer]
  rw [if_neg hbuf]
  simp [truthyStr, hne, hget]

/-- `_process_buffer` on a cache miss (no entry, or a stored text that is
not truthy): generated result, one router dispatch, sentinel text on
total dispatch failure, response stored back in the cache, buffer
cleared. -/
theorem processBuffer_miss (s : ServiceState) (bk : Backends) (now : ℚ)
    (hbuf : s.buffer ≠ [])
    (hmiss : truthyStr (s.cache.get (calcAvgConfidence s.buffer) now).1 = false) :
    processBuffer s bk now = some
      { result :=
          { source := "gemini"
          , response := if (call_with_round_robin s.router bk).1.success then
              (call_with_round_robin s.router bk).1.response else sentinelFailureText
          , runtime := if (call_with_round_robin s.router bk).1.success then
              (call_with_round_robin s.router bk).1.runtime else "none"
          , avg_confidence := calcAvgConfidence s.buffer
          , confidence_bucket := getConfidenceBucket (calcAvgConfidence s.buffer)
          , detection_count := s.buffer.length
          , detections := s.buffer
          , latency_ms := 0 }
      , state :=
          { s with
            buffer := []
            cache :=
              ((s.cache.get (calcAvgConfidence s.buffer) now).2).put
                (calcAvgConfidence s.buffer)
                (if (call_with_round_robin s.router bk).1.success then
                  (call_with_round_robin s.router bk).1.response else sentinelFailureText)
                now
            router := (call_with_round_robin s.router bk).2
            ai_calls := if (call_with_round_robin s.router bk).1.success then
                s.ai_calls + 1 else s.ai_calls
            confidence_distribution :=
              bump s.confidence_distribution
                (getConfidenceBucket (calcAvgConfidence s.buffer))
            latencies_gemini := s.latencies_gemini ++ [0] }
      , bufAtCacheGet := s.buffer
      , bufAtDispatch := some s.buffer } := by
  simp only [processBuffer]
  rw [if_neg hbuf]
  simp [hmiss]

/-- C3 (amended): when an add reaches capacity, the buffer's events list
is cleared only at the end of processing, not before: at the moment the
cache is consulted the buffer still holds the full window's events, and
during any router dispatch made for that window it still holds them;
only after processing completes (when the add returns) is the buffer
empty. -/
theorem buffer_cleared_only_after_processing (s : ServiceState) (bk : Backends)
    (now : ℚ) (tr : ProcTrace) (h : processBuffer s bk now = some tr) :
    tr.bufAtCacheGet = s.buffer ∧
    (∀ b, tr.bufAtDispatch = some b → b = s.buffer) ∧
    tr.state.buffer = [] := by
  have hne : s.buffer ≠ [] := by
    intro hb
    rw [processBuffer, if_pos hb] at h
    exact Option.noConfusion h
  obtain ⟨tr', h', hb, -, -, hcg, hdp⟩ := processBuffer_shape s bk now hne
  rw [h'] at h
  cases h
  exact ⟨hcg, hdp, hb⟩

/-- C3 witness: the amended statement at the concrete one-event window. -/
theorem buffer_cleared_only_after_processing_witness :
    ∃ tr, processBuffer svcOneFull bkAllFail 0 = some tr ∧
      (tr.bufAtCacheGet = svcOneFull.buffer ∧
       (∀ b, tr.bufAtDispatch = some b → b = svcOneFull.buffer) ∧
       tr.state.buffer = []) := by
  obtain ⟨tr, htr, -⟩ := processBuffer_shape svcOneFull bkAllFail 0
    (by simp [svcOneFull, svcSize1])
  exact ⟨tr, htr, buffer_cleared_only_after_processing svcOneFull bkAllFail 0 tr htr⟩

/-- C3 counterexample: on a concrete one-event window processed on a cold
cache, the buffer observed at the moment of the cache consultation is the
full (nonempty) window, and so is the buffer observed at the router
dispatch — refuting the claim that the events list is already cleared at
those moments. -/
theorem buffer_swapped_before_processing_cex :
    (processBuffer svcOneFull bkAllFail 0).map ProcTrace.bufAtCacheGet =
      some [evHalf] ∧
    (processBuffer svcOneFull bkAllFail 0).map ProcTrace.bufAtDispatch =
      some (some [evHalf]) ∧
    ([evHalf] : List Event) ≠ [] := by
  have hmiss : truthyStr
      (svcOneFull.cache.get (calcAvgConfidence svcOneFull.buffer) 0).1 = false := by
    rw [get_missing _ _ _
      (by simp [svcOneFull, svcSize1, DetectionBufferService.init, LRUCache.init])]
    rfl
  have h := processBuffer_miss svcOneFull bkAllFail 0
    (by simp [svcOneFull, svcSize1]) hmiss
  rw [h]
  refine ⟨rfl, rfl, by simp⟩

/-- Under all-failing backends every runtime call fails. -/
theorem tryResponse_allFail (r : String) : tryResponse bkAllFail r = none := by
  unfold tryResponse bkAllFail
  split_ifs <;> rfl

/-- Under all-failing backends every dispatch returns the sentinel
failure record. -/
theorem dispatch_allFail (st : RouterState) :
    (call_with_round_robin st bkAllFail).1 = failureRecord := by
  by_cases hp : st.rotation.getD st.current_index "" = "ollama"
  · rw [dispatch_ollama_primary_fail st bkAllFail hp rfl]
  · rw [dispatch_total_fail st bkAllFail (tryResponse_allFail _) hp rfl]

/-- C6: when both the primary and the fallback fail (or the primary was
the fallback backend "ollama" and it failed), dispatch does not raise: it
returns the well-formed sentinel record with success = false, the fixed
sentinel failure text and no identified backend (runtime "none"); and the
full-window add that triggered the dispatch likewise returns a result
record (source "gemini", sentinel text, runtime "none") rather than
raising. -/
theorem total_failure_returns_record (s : ServiceState) (e : Event) (bk : Backends)
    (now : ℚ)
    (hfull : s.buffer_size ≤ s.buffer.length + 1)
    (hmiss : truthyStr
      (s.cache.get (calcAvgConfidence (s.buffer ++ [e])) now).1 = false)
    (hpf : tryResponse bk (s.router.rotation.getD s.router.current_index "") = none)
    (hof : bk.ollama = none) :
    (call_with_round_robin s.router bk).1 = failureRecord ∧
    (call_with_round_robin s.router bk).1.success = false ∧
    (call_with_round_robin s.router bk).1.response = sentinelFailureText ∧
    (call_with_round_robin s.router bk).1.runtime = "none" ∧
    ∃ tr, (add_detection s e bk now).1 = some tr ∧
      tr.result.response = sentinelFailureText ∧
      tr.result.runtime = "none" ∧
      tr.result.source = "gemini" := by
  have hrec : (call_with_round_robin s.router bk).1 = failureRecord := by
    by_cases hp : s.router.rotation.getD s.router.current_index "" = "ollama"
    · rw [hp] at hpf
      rw [tryResponse_ollama] at hpf
      rw [dispatch_ollama_primary_fail s.router bk hp hpf]
    · rw [dispatch_total_fail s.router bk hpf hp hof]
  refine ⟨hrec, by rw [hrec]; rfl, by rw [hrec]; rfl, by rw [hrec]; rfl, ?_⟩
  obtain ⟨tr, htr, hadd⟩ := add_detection_reach s e bk now hfull
  have hm := processBuffer_miss
    { s with
      buffer := s.buffer ++ [e]
      total_detections := s.total_detections + 1 } bk now (by simp) hmiss
  rw [hm] at htr
  cases htr
  refine ⟨_, by rw [hadd], ?_, ?_, rfl⟩
  · simp [hrec, failureRecord]
  · simp [hrec, failureRecord]

/-- C6 witness: the default service with three buffered events receiving
its fourth while every backend is down. -/
theorem total_failure_returns_record_witness :
    svcThree.buffer_size ≤ svcThree.buffer.length + 1 ∧
    bkAllFail.ollama = none ∧
    ((call_with_round_robin svcThree.router bkAllFail).1 = failureRecord ∧
     (call_with_round_robin svcThree.router bkAllFail).1.success = false ∧
     (call_with_round_robin svcThree.router bkAllFail).1.response = sentinelFailureText ∧
     (call_with_round_robin svcThree.router bkAllFail).1.runtime = "none" ∧
     ∃ tr, (add_detection svcThree
         { label := "heart", confidence := some 0.91 } bkAllFail 0).1 = some tr ∧
       tr.result.response = sentinelFailureText ∧
       tr.result.runtime = "none" ∧
       tr.result.source = "gemini") :=
  ⟨by decide, rfl,
   total_failure_returns_record svcThree
     { label := "heart", confidence := some 0.91 } bkAllFail 0
     (by decide)
     (by
       rw [get_missing _ _ _
         (by simp [svcThree, svcDefault, DetectionBufferService.init, LRUCache.init])]
       rfl)
     (tryResponse_allFail _)
     rfl⟩

/-- Evaluation helper: the four-event window `evsExcellent` averages
371/400 = 0.9275. -/
theorem avg_evsExcellent : calcAvgConfidence evsExcellent = 371 / 400 := by
  rw [calcAvgConfidence]
  rw [if_neg (by simp [evsExcellent])]
  norm_num [evsExcellent]

/-- Evaluation helper: that average falls in bucket "excellent". -/
theorem bucket_avg_evsExcellent :
    getConfidenceBucket (calcAvgConfidence evsExcellent) = "excellent" := by
  rw [avg_evsExcellent, getConfidenceBucket]
  norm_num

/-- C10: if the text stored in the cache for the window's bucket is the
empty string, a full window in that bucket increments the cache's global
hit counter and the entry's hit count (the `get` registers a hit), yet
the add returns a generated result (source "gemini", not "cache") and
performs a new dispatch whose outcome overwrites the cached entry — hit
accounting and the returned source disagree for empty cached text. -/
theorem empty_cached_text_hit_miss_disagreement (s : ServiceState) (bk : Backends)
    (now : ℚ) (e : CacheEntry) (b : String)
    (hb : b = getConfidenceBucket (calcAvgConfidence s.buffer))
    (hbuf : s.buffer ≠ [])
    (hlk : s.cache.cache.lookup b = some e)
    (hempty : e.response = "") :
    ∃ tr, processBuffer s bk now = some tr ∧
      tr.state.cache.hits = s.cache.hits + 1 ∧
      (tr.state.cache.cache.lookup b).map CacheEntry.hit_count =
        some (e.hit_count + 1) ∧
      tr.result.source = "gemini" ∧
      ("gemini" : String) ≠ "cache" ∧
      tr.bufAtDispatch = some s.buffer ∧
      (tr.state.cache.cache.lookup b).map CacheEntry.response =
        some (if (call_with_round_robin s.router bk).1.success then
          (call_with_round_robin s.router bk).1.response else sentinelFailureText) := by
  subst hb
  have hget := get_found s.cache (calcAvgConfidence s.buffer) now e hlk
  have hmiss : truthyStr (s.cache.get (calcAvgConfidence s.buffer) now).1 = false := by
    rw [hget]
    simp [truthyStr, hempty]
  have hm := processBuffer_miss s bk now hbuf hmiss
  have hlk1 : ((s.cache.get (calcAvgConfidence s.buffer) now).2).cache.lookup
      (getConfidenceBucket (calcAvgConfidence s.buffer)) =
      some { e with hit_count := e.hit_count + 1, last_used := now } := by
    rw [hget]
    exact lookup_eraseBucket_append _ _ _
  have hput := put_found ((s.cache.get (calcAvgConfidence s.buffer) now).2)
    (calcAvgConfidence s.buffer) now
    (if (call_with_round_robin s.router bk).1.success then
      (call_with_round_robin s.router bk).1.response else sentinelFailureText)
    { e with hit_count := e.hit_count + 1, last_used := now } hlk1
  refine ⟨_, hm, ?_, ?_, rfl, by decide, rfl, ?_⟩
  · rw [hput, hget]
  · rw [hput, lookup_eraseBucket_append]
    rfl
  · rw [hput, lookup_eraseBucket_append]
    rfl

/-- C10 witness: a full "excellent" window arriving while the cache holds
the empty string for "excellent". -/
theorem empty_cached_text_hit_miss_disagreement_witness :
    ("excellent" : String) =
      getConfidenceBucket (calcAvgConfidence svcEmptyCachedFull.buffer) ∧
    svcEmptyCachedFull.buffer ≠ [] ∧
    svcEmptyCachedFull.cache.cache.lookup "excellent" =
      some { response := "", created_at := 0, last_used := 0
           , updated_at := 0, hit_count := 3 } ∧
    (∃ tr, processBuffer svcEmptyCachedFull bkAllOk 0 = some tr ∧
      tr.state.cache.hits = svcEmptyCachedFull.cache.hits + 1 ∧
      (tr.state.cache.cache.lookup "excellent").map CacheEntry.hit_count =
        some (3 + 1) ∧
      tr.result.source = "gemini" ∧
      ("gemini" : String) ≠ "cache" ∧
      tr.bufAtDispatch = some svcEmptyCachedFull.buffer ∧
      (tr.state.cache.cache.lookup "excellent").map CacheEntry.response =
        some (if (call_with_round_robin svcEmptyCachedFull.router bkAllOk).1.success then
          (call_with_round_robin svcEmptyCachedFull.router bkAllOk).1.response
          else sentinelFailureText)) :=
  ⟨bucket_avg_evsExcellent.symm,
   by simp [svcEmptyCachedFull, evsExcellent],
   by simp [svcEmptyCachedFull, svcWithEmptyCached, cacheWithEmptyEntry, cacheWithEntry],
   empty_cached_text_hit_miss_disagreement svcEmptyCachedFull bkAllOk 0
     { response := "", created_at := 0, last_used := 0
     , updated_at := 0, hit_count := 3 }
     "excellent"
     bucket_avg_evsExcellent.symm
     (by simp [svcEmptyCachedFull, evsExcellent])
     (by simp [svcEmptyCachedFull, svcWithEmptyCached, cacheWithEmptyEntry, cacheWithEntry])
     rfl⟩

/-- A full window fed into an empty-buffered service whose cache holds a
truthy entry for the window's bucket comes back as a cache hit carrying
the stored text. -/
theorem next_window_hits (s2 : ServiceState) (bk : Backends) (now2 : ℚ)
    (es2 : List Event) (b : String) (e : CacheEntry)
    (hbuf2 : s2.buffer = [])
    (hlen2 : es2.length = s2.buffer_size) (hpos : 0 < s2.buffer_size)
    (hb2 : getConfidenceBucket (calcAvgConfidence es2) = b)
    (hlk : s2.cache.cache.lookup b = some e)
    (hne : e.response ≠ "") :
    ∃ tr2, (add_all s2 es2 bk now2).1.getLast? = some (some tr2, 0) ∧
      tr2.result.source = "cache" ∧
      tr2.result.response = e.response := by
  have hfits : s2.buffer.length + es2.length = s2.buffer_size := by
    rw [hbuf2]; simpa using hlen2
  obtain ⟨tr, htr, hres, -⟩ := add_all_run bk now2 es2 s2 hfits (by omega)
  have hhit := processBuffer_hit
    { s2 with
      buffer := s2.buffer ++ es2
      total_detections := s2.total_detections + es2.length } bk now2 e
    (by
      show ¬ (s2.buffer ++ es2 = [])
      rw [hbuf2, List.nil_append]
      exact List.length_pos.mp (by omega))
    (by
      show s2.cache.cache.lookup
        (getConfidenceBucket (calcAvgConfidence (s2.buffer ++ es2))) = some e
      rw [hbuf2, List.nil_append, hb2]
      exact hlk)
    hne
  have hlast : (add_all s2 es2 bk now2).1.getLast? = some (some tr, 0) := by
    rw [hres]
    exact List.getLast?_concat _
  rw [hhit] at htr
  cases htr
  exact ⟨_, hlast, rfl, rfl⟩

/-- C9: when a full window misses the cache and the dispatch fails
totally (every backend down, so primary and ollama fallback both fail),
the sentinel failure text is nevertheless stored in the cache under the
window's bucket, and the next full window whose average confidence falls
in the same bucket returns that sentinel text as a cache hit with source
"cache". -/
theorem sentinel_cached_and_served (s : ServiceState) (now now2 : ℚ)
    (es2 : List Event) (b : String)
    (hb : b = getConfidenceBucket (calcAvgConfidence s.buffer))
    (hfull : s.buffer.length = s.buffer_size) (hpos : 0 < s.buffer_size)
    (hmiss : s.cache.cache.lookup b = none)
    (hlen2 : es2.length = s.buffer_size)
    (hb2 : getConfidenceBucket (calcAvgConfidence es2) = b) :
    ∃ tr1, processBuffer s bkAllFail now = some tr1 ∧
      tr1.result.source = "gemini" ∧
      tr1.result.response = sentinelFailureText ∧
      (tr1.state.cache.cache.lookup b).map CacheEntry.response =
        some sentinelFailureText ∧
      ∃ tr2, (add_all tr1.state es2 bkAllFail now2).1.getLast? =
          some (some tr2, 0) ∧
        tr2.result.source = "cache" ∧
        tr2.result.response = sentinelFailureText := by
  subst hb
  have hne : s.buffer ≠ [] := by
    intro h0
    rw [h0] at hfull
    simp at hfull
    omega
  have hmtruthy : truthyStr (s.cache.get (calcAvgConfidence s.buffer) now).1 = false := by
    rw [get_missing _ _ _ hmiss]
    rfl
  have hm1 := processBuffer_miss s bkAllFail now hne hmtruthy
  have hresp : (if (call_with_round_robin s.router bkAllFail).1.success then
      (call_with_round_robin s.router bkAllFail).1.response else sentinelFailureText) =
      sentinelFailureText := by
    rw [dispatch_allFail s.router]
    rfl
  have hCm := get_missing s.cache (calcAvgConfidence s.buffer) now hmiss
  have hput := put_missing ((s.cache.get (calcAvgConfidence s.buffer) now).2)
    (calcAvgConfidence s.buffer) now
    (if (call_with_round_robin s.router bkAllFail).1.success then
      (call_with_round_robin s.router bkAllFail).1.response else sentinelFailureText)
    (by rw [hCm]; exact hmiss)
  have hlk2 : ((((s.cache.get (calcAvgConfidence s.buffer) now).2)).put
      (calcAvgConfidence s.buffer)
      (if (call_with_round_robin s.router bkAllFail).1.success then
        (call_with_round_robin s.router bkAllFail).1.response else sentinelFailureText)
      now).cache.lookup (getConfidenceBucket (calcAvgConfidence s.buffer)) =
      some { response :=
               (if (call_with_round_robin s.router bkAllFail).1.success then
                 (call_with_round_robin s.router bkAllFail).1.response
                 else sentinelFailureText)
           , created_at := now, last_used := now, updated_at := now
           , hit_count := 0 } := by
    rw [hput]
    refine lookup_append_single _ _ _ ?_
    split
    · exact lookup_tail_none _ _ (by rw [hCm]; exact hmiss)
    · rw [hCm]; exact hmiss
  obtain ⟨tr2, hlast2, hsrc2, hresp2⟩ := next_window_hits
    { s with
      buffer := []
      cache :=
        ((s.cache.get (calcAvgConfidence s.buffer) now).2).put
          (calcAvgConfidence s.buffer)
          (if (call_with_round_robin s.router bkAllFail).1.success then
            (call_with_round_robin s.router bkAllFail).1.response
            else sentinelFailureText) now
      router := (call_with_round_robin s.router bkAllFail).2
      ai_calls := if (call_with_round_robin s.router bkAllFail).1.success then
          s.ai_calls + 1 else s.ai_calls
      confidence_distribution :=
        bump s.confidence_distribution
          (getConfidenceBucket (calcAvgConfidence s.buffer))
      latencies_gemini := s.latencies_gemini ++ [0] }
    bkAllFail now2 es2 (getConfidenceBucket (calcAvgConfidence s.buffer))
    { response :=
        (if (call_with_round_robin s.router bkAllFail).1.success then
          (call_with_round_robin s.router bkAllFail).1.response
          else sentinelFailureText)
    , created_at := now, last_used := now, updated_at := now, hit_count := 0 }
    rfl hlen2 hpos hb2 hlk2
    (by rw [hresp]; simp [sentinelFailureText])
  refine ⟨_, hm1, rfl, hresp, ?_, ⟨tr2, hlast2, hsrc2, ?_⟩⟩
  · rw [hlk2]
    simpa using hresp
  · rw [hresp2]
    exact hresp

/-- Evaluation helper: the follow-up window `evsExcellent2` averages
189/200 = 0.945. -/
theorem avg_evsExcellent2 : calcAvgConfidence evsExcellent2 = 189 / 200 := by
  rw [calcAvgConfidence]
  rw [if_neg (by simp [evsExcellent2])]
  norm_num [evsExcellent2]

/-- Evaluation helper: that average falls in bucket "excellent" too. -/
theorem bucket_avg_evsExcellent2 :
    getConfidenceBucket (calcAvgConfidence evsExcellent2) = "excellent" := by
  rw [avg_evsExcellent2, getConfidenceBucket]
  norm_num

/-- C9 witness: a full "excellent" window on a cold cache with every
backend down, followed by a second "excellent" window. -/
theorem sentinel_cached_and_served_witness :
    ("excellent" : String) =
      getConfidenceBucket (calcAvgConfidence svcFullExcellent.buffer) ∧
    svcFullExcellent.buffer.length = svcFullExcellent.buffer_size ∧
    svcFullExcellent.cache.cache.lookup "excellent" = none ∧
    evsExcellent2.length = svcFullExcellent.buffer_size ∧
    getConfidenceBucket (calcAvgConfidence evsExcellent2) = "excellent" ∧
    (∃ tr1, processBuffer svcFullExcellent bkAllFail 0 = some tr1 ∧
      tr1.result.source = "gemini" ∧
      tr1.result.response = sentinelFailureText ∧
      (tr1.state.cache.cache.lookup "excellent").map CacheEntry.response =
        some sentinelFailureText ∧
      ∃ tr2, (add_all tr1.state evsExcellent2 bkAllFail 1).1.getLast? =
          some (some tr2, 0) ∧
        tr2.result.source = "cache" ∧
        tr2.result.response = sentinelFailureText) :=
  ⟨bucket_avg_evsExcellent.symm, rfl, rfl, rfl, bucket_avg_evsExcellent2,
   sentinel_cached_and_served svcFullExcellent 0 1 evsExcellent2 "excellent"
     bucket_avg_evsExcellent.symm rfl (by decide) rfl rfl bucket_avg_evsExcellent2⟩
